import Mathlib

/-!
Shallow embedding of the escrow wallet ledger of the telegram marketplace bot
(src/app/models/user.py, src/app/models/order.py,
src/app/services/wallet_service.py, src/app/scheduler/tasks.py).

Money (`Decimal`/`Numeric(12,2)` columns) is modelled as `ℚ`; timestamps as
`Int` seconds, with `datetime.now(timezone.utc)` passed in explicitly as a
`now` parameter. A Python `raise` inside a service call is modelled as
`Except.error`: the raise always happens before any balance mutation, so the
error branch carries no changed state (the surrounding session also rolls back
uncommitted changes on an exception). The model is per user: a `Wallet` plus
its own transaction log and fund locks, which is the granularity at which the
service mutates balances.
-/

namespace Marketplace

/-- Transaction types of the ledger (models/user.py, `TransactionType`). -/
inductive TransactionType where
  | deposit
  | withdrawal
  | purchase_debit
  | sale_credit
  | refund
  | fee_debit
  | system_adjustment
  | lock
  | release
  | hold_lock
  | hold_release
  deriving DecidableEq

/-- Errors of the wallet service (wallet_service.py): `InsufficientFundsError`
is its only raise site inside the functions modelled here. -/
inductive WalletServiceError where
  | insufficientFunds
  deriving DecidableEq

/-- A user's wallet (models/user.py, `Wallet`): total and locked balances. -/
structure Wallet where
  total_balance : ℚ
  locked_balance : ℚ
  deriving DecidableEq

/-- `Wallet.available_balance` (models/user.py): total minus locked. -/
def Wallet.available_balance (w : Wallet) : ℚ :=
  w.total_balance - w.locked_balance

/-- `Wallet.can_afford` (models/user.py): available balance covers the amount. -/
def Wallet.can_afford (w : Wallet) (amount : ℚ) : Bool :=
  decide (w.available_balance ≥ amount)

/-- A ledger entry (models/user.py, `Transaction`), with the before/after
balance snapshots. Bookkeeping-only columns (ids, admin, metadata, timestamps)
are dropped. -/
structure Transaction where
  type : TransactionType
  amount : ℚ
  description : String
  reference_type : Option String
  reference_id : Option String
  balance_before : ℚ
  balance_after : ℚ
  locked_before : ℚ
  locked_after : ℚ
  deriving DecidableEq

/-- `WalletService.create_transaction` (wallet_service.py 82-159): mutates the
wallet balances according to the transaction type — raising
`InsufficientFundsError` for a debit or lock that exceeds the available
balance — and records a `Transaction` carrying the balances immediately before
and after the call. -/
def create_transaction (wallet : Wallet) (transaction_type : TransactionType)
    (amount : ℚ) (description : String)
    (reference_type : Option String) (reference_id : Option String) :
    Except WalletServiceError (Wallet × Transaction) :=
  let balance_before := wallet.total_balance
  let locked_before := wallet.locked_balance
  let finish : Wallet → Wallet × Transaction := fun w =>
    (w, { type := transaction_type
          amount := amount
          description := description
          reference_type := reference_type
          reference_id := reference_id
          balance_before := balance_before
          balance_after := w.total_balance
          locked_before := locked_before
          locked_after := w.locked_balance })
  match transaction_type with
  | .deposit | .sale_credit | .refund | .system_adjustment =>
      .ok (finish { wallet with total_balance := wallet.total_balance + amount })
  | .purchase_debit | .withdrawal | .fee_debit =>
      if wallet.available_balance < amount then .error .insufficientFunds
      else .ok (finish { wallet with total_balance := wallet.total_balance - amount })
  | .lock =>
      if wallet.available_balance < amount then .error .insufficientFunds
      else .ok (finish { wallet with locked_balance := wallet.locked_balance + amount })
  | .release =>
      .ok (finish { wallet with locked_balance := wallet.locked_balance - amount })
  | .hold_lock =>
      .ok (finish { wallet with locked_balance := wallet.locked_balance + amount })
  | .hold_release =>
      .ok (finish { wallet with
                    locked_balance := wallet.locked_balance - amount
                    total_balance := wallet.total_balance + amount })

/-- A provisional hold on funds (models/user.py, `FundLock`). The uuid primary
key is modelled by a `Nat` id drawn from the state's counter. -/
structure FundLock where
  id : Nat
  amount : ℚ
  reason : String
  reference_type : String
  reference_id : String
  is_active : Bool
  expires_at : Option Int
  released_at : Option Int
  deriving DecidableEq

/-- One user's persisted financial state: the wallet row, its transaction log
in creation order, its fund locks, and the fresh-id counter standing in for
uuid generation. -/
structure WalletState where
  wallet : Wallet
  transactions : List Transaction
  fund_locks : List FundLock
  next_lock_id : Nat
  deriving DecidableEq

/-- `WalletService.create_fund_lock` (wallet_service.py 163-206): checks
`can_afford`, records a `lock` transaction and the new active `FundLock`
together; raises `InsufficientFundsError` otherwise. -/
def create_fund_lock (st : WalletState) (amount : ℚ) (reason : String)
    (reference_type : String) (reference_id : String) (expires_at : Option Int) :
    Except WalletServiceError (WalletState × FundLock) :=
  if !st.wallet.can_afford amount then
    .error .insufficientFunds
  else
    let fund_lock : FundLock :=
      { id := st.next_lock_id
        amount := amount
        reason := reason
        reference_type := reference_type
        reference_id := reference_id
        is_active := true
        expires_at := expires_at
        released_at := none }
    match create_transaction st.wallet .lock amount ("נעילת כספים: " ++ reason)
        (some reference_type) (some reference_id) with
    | .error e => .error e
    | .ok (w, tx) =>
        .ok ({ wallet := w
               transactions := st.transactions ++ [tx]
               fund_locks := st.fund_locks ++ [fund_lock]
               next_lock_id := st.next_lock_id + 1 }, fund_lock)

/-- `WalletService.release_fund_lock` (wallet_service.py 208-241): a no-op
returning `false` when no active lock with this id exists; otherwise marks the
lock inactive with a release timestamp and records a `release` transaction for
the lock's amount. The id is a primary key, so the select matches at most one
row; the map deactivates exactly that lock when ids are unique. -/
def release_fund_lock (st : WalletState) (lock_id : Nat) (now : Int) :
    Except WalletServiceError (WalletState × Bool) :=
  match st.fund_locks.find? (fun l => decide (l.id = lock_id ∧ l.is_active = true)) with
  | none => .ok (st, false)
  | some fund_lock =>
      let fund_locks := st.fund_locks.map (fun l =>
        if l.id = lock_id ∧ l.is_active = true then
          { l with is_active := false, released_at := some now }
        else l)
      match create_transaction st.wallet .release fund_lock.amount
          ("שחרור נעילה: " ++ fund_lock.reason)
          (some fund_lock.reference_type) (some fund_lock.reference_id) with
      | .error e => .error e
      | .ok (w, tx) =>
          .ok ({ wallet := w
                 transactions := st.transactions ++ [tx]
                 fund_locks := fund_locks
                 next_lock_id := st.next_lock_id }, true)

/-- Fee percentages: the defaults of app/config.py
(`BUYER_FEE_PERCENT = 2.0`, `SELLER_VERIFIED_FEE_PERCENT = 3.0`,
`SELLER_UNVERIFIED_FEE_PERCENT = 5.0`). -/
def BUYER_FEE_PERCENT : ℚ := 2

/-- Verified-seller fee percent (app/config.py default 3.0). -/
def SELLER_VERIFIED_FEE_PERCENT : ℚ := 3

/-- Unverified-seller fee percent (app/config.py default 5.0). -/
def SELLER_UNVERIFIED_FEE_PERCENT : ℚ := 5

/-- `calculate_fees` (models/user.py 395-413): buyer fee when buying; the
seller fee from the seller's verification tier. Returns (buyer fee, seller fee). -/
def calculate_fees (amount : ℚ) (is_buyer : Bool) (seller_verified : Bool) :
    ℚ × ℚ :=
  let buyer_fee : ℚ :=
    if is_buyer then amount * (BUYER_FEE_PERCENT / 100) else 0
  let seller_fee : ℚ :=
    if seller_verified then amount * (SELLER_VERIFIED_FEE_PERCENT / 100)
    else amount * (SELLER_UNVERIFIED_FEE_PERCENT / 100)
  (buyer_fee, seller_fee)

/-- `WalletService.process_purchase` (wallet_service.py 294-339): debits the
buyer the total plus buyer fee by a single `purchase_debit`, then places a
`hold_lock` for the net seller amount on the seller's wallet. -/
def process_purchase (buyer_wallet seller_wallet : Wallet) (total_amount : ℚ)
    (order_id : String) (seller_verified : Bool) :
    Except WalletServiceError ((Wallet × Transaction) × (Wallet × Transaction)) :=
  let fees := calculate_fees total_amount true seller_verified
  let buyer_total := total_amount + fees.1
  let seller_net := total_amount - fees.2
  match create_transaction buyer_wallet .purchase_debit buyer_total
      "רכישת קופון" (some "order") (some order_id) with
  | .error e => .error e
  | .ok (bw, btx) =>
      match create_transaction seller_wallet .hold_lock seller_net
          "החזקת תשלום למוכר" (some "order") (some order_id) with
      | .error e => .error e
      | .ok (sw, stx) => .ok ((bw, btx), (sw, stx))

/-- The predicate of the hold lookup in `release_seller_hold`: the order's
`hold_lock` transaction. -/
def is_hold_lock_for (order_id : String) (t : Transaction) : Bool :=
  decide (t.type = TransactionType.hold_lock ∧
    t.reference_type = some "order" ∧ t.reference_id = some order_id)

/-- `WalletService.release_seller_hold` (wallet_service.py 341-381): looks up
the order's `hold_lock` transaction with `scalar_one_or_none` (the
several-rows exception is modelled as `none`) and, when found, records a
`hold_release` for the hold's amount and returns `true`. Nothing marks the
hold transaction as consumed. -/
def release_seller_hold (seller_wallet : Wallet)
    (transactions : List Transaction) (order_id : String)
    (early_release : Bool) :
    Option ((Wallet × List Transaction) × Bool) :=
  match transactions.filter (is_hold_lock_for order_id) with
  | [] => some ((seller_wallet, transactions), false)
  | [hold_transaction] =>
      match create_transaction seller_wallet .hold_release
          hold_transaction.amount
          (if early_release then "שחרור תשלום למוכר: אישור מוקדם של הקונה"
           else "שחרור תשלום למוכר: שחרור אוטומטי") (some "order")
          (some order_id) with
      | .error _ => none
      | .ok (w, tx) => some ((w, transactions ++ [tx]), true)
  | _ => none

/-- `WalletService.place_auction_bid` (wallet_service.py 385-410): releases the
previous bid's lock when given, then creates a fund lock for the bid amount
expiring 48 hours out. -/
def place_auction_bid (st : WalletState) (auction_id : String)
    (bid_amount : ℚ) (previous_bid_lock_id : Option Nat) (now : Int) :
    Except WalletServiceError (WalletState × FundLock) :=
  match previous_bid_lock_id with
  | some lock_id =>
      match release_fund_lock st lock_id now with
      | .error e => .error e
      | .ok (st1, _) =>
          create_fund_lock st1 bid_amount "הצעה במכרז" "auction" auction_id
            (some (now + 48 * 3600))
  | none =>
      create_fund_lock st bid_amount "הצעה במכרז" "auction" auction_id
        (some (now + 48 * 3600))

/-- Order statuses (models/order.py, `OrderStatus`). -/
inductive OrderStatus where
  | pending
  | paid
  | delivered
  | in_dispute
  | resolved
  | released
  | cancelled
  | refunded
  deriving DecidableEq

/-- Dispute reasons (models/order.py, `DisputeReason`). -/
inductive DisputeReason where
  | coupon_invalid
  | coupon_expired
  | coupon_used
  | wrong_details
  | seller_unresponsive
  | other
  deriving DecidableEq

/-- Errors of the order state machine: `report_dispute` raises `ValueError`
when the transition is not allowed. -/
inductive OrderError where
  | invalidTransition
  deriving DecidableEq

/-- An order (models/order.py, `Order`): status, the four timing fields, and
the dispute bookkeeping the state machine mutates. Monetary breakdown columns
are not needed by the timing claims and are dropped. -/
structure Order where
  id : String
  status : OrderStatus
  purchased_at : Option Int
  dispute_window_until : Option Int
  seller_hold_until : Option Int
  buyer_confirmed_at : Option Int
  reported_at : Option Int
  dispute_reason : Option DisputeReason
  dispute_description : Option String
  delivered_at : Option Int
  coupon_data : Option String
  deriving DecidableEq

/-- `Order.is_dispute_window_open` (models/order.py 169-173): false when the
window was never set, else `now < dispute_window_until`. -/
def Order.is_dispute_window_open (o : Order) (now : Int) : Bool :=
  match o.dispute_window_until with
  | none => false
  | some t => decide (now < t)

/-- `Order.should_auto_release` (models/order.py 175-181): hold time passed,
unless no hold is set or the order is in dispute. -/
def Order.should_auto_release (o : Order) (now : Int) : Bool :=
  match o.seller_hold_until with
  | none => false
  | some t =>
      if o.status = OrderStatus.in_dispute then false
      else decide (now ≥ t)

/-- `Order.can_report_dispute` (models/order.py 183-189): delivered, window
still open, and not already reported. -/
def Order.can_report_dispute (o : Order) (now : Int) : Bool :=
  decide (o.status = OrderStatus.delivered) &&
  o.is_dispute_window_open now &&
  decide (o.reported_at = none)

/-- `Order.set_purchase_timers` (models/order.py 198-203): stamps
`purchased_at := now` and derives the 12h dispute window and 24h seller hold
from that same `now`. -/
def Order.set_purchase_timers (o : Order) (now : Int) : Order :=
  { o with purchased_at := some now
           dispute_window_until := some (now + 12 * 3600)
           seller_hold_until := some (now + 24 * 3600) }

/-- `mark_order_paid` (models/order.py 418-421): to `paid`, stamping
`purchased_at` with the payment time. -/
def mark_order_paid (o : Order) (now : Int) : Order :=
  { o with status := OrderStatus.paid, purchased_at := some now }

/-- `mark_order_delivered` (models/order.py 424-429): to `delivered`, storing
the delivered content and calling `set_purchase_timers` at the delivery time. -/
def mark_order_delivered (o : Order) (coupon_data : String) (now : Int) : Order :=
  Order.set_purchase_timers
    { o with status := OrderStatus.delivered
             delivered_at := some now
             coupon_data := some coupon_data } now

/-- `report_dispute` (models/order.py 439-451): legal only while
`can_report_dispute` holds; transitions to `in_dispute` and records the
report. -/
def report_dispute (o : Order) (reason : DisputeReason) (description : String)
    (now : Int) : Except OrderError Order :=
  if !o.can_report_dispute now then .error .invalidTransition
  else
    .ok { o with status := OrderStatus.in_dispute
                 reported_at := some now
                 dispute_reason := some reason
                 dispute_description := some description }

/-- Auction statuses (models/order.py, `AuctionStatus`). -/
inductive AuctionStatus where
  | active
  | ended
  | cancelled
  | finalized
  deriving DecidableEq

/-- An auction (models/order.py, `Auction`): the pricing and timing fields the
bidding claims use. -/
structure Auction where
  starting_price : ℚ
  current_price : ℚ
  starts_at : Int
  ends_at : Int
  extended_until : Option Int
  status : AuctionStatus
  deriving DecidableEq

/-- `Auction.is_active` (models/order.py 291-298): status `active` and `now`
inside [starts_at, extended_until or ends_at]. -/
def Auction.is_active (a : Auction) (now : Int) : Bool :=
  let end_time := a.extended_until.getD a.ends_at
  decide (a.status = AuctionStatus.active ∧ a.starts_at ≤ now ∧ now ≤ end_time)

/-- Errors of the bid-acceptance check. -/
inductive BidError where
  | auctionNotActive
  | bidTooLow
  | walletError (e : WalletServiceError)
  deriving DecidableEq

/-- Modelled from the spec: the repository source has no bid-acceptance check —
`WalletService.place_auction_bid` covers only the fund-lock side, and nothing
under src/ compares a bid against `current_price` or updates it. Spec §4.4
(`place_bid`): a bid is accepted only while `is_active()` holds, its amount
must exceed `current_price` by at least the configured minimum increment, and
on success `current_price` is set to the bid amount; the financial side is the
source's `place_auction_bid`. -/
def place_bid (auction : Auction) (st : WalletState) (amount : ℚ)
    (min_increment : ℚ) (previous_bid_lock_id : Option Nat)
    (auction_id : String) (now : Int) :
    Except BidError (Auction × WalletState × FundLock) :=
  if !auction.is_active now then .error .auctionNotActive
  else if amount < auction.current_price + min_increment then .error .bidTooLow
  else
    match place_auction_bid st auction_id amount previous_bid_lock_id now with
    | .error e => .error (.walletError e)
    | .ok (st1, fund_lock) =>
        .ok ({ auction with current_price := amount }, st1, fund_lock)

/-- One bid attempt in a sequence: the bidder's wallet state, the amount, an
optional previous lock to replace, and the bid time. -/
structure BidRequest where
  bidder_state : WalletState
  amount : ℚ
  previous_bid_lock_id : Option Nat
  time : Int

/-- One bid attempt against an auction: an accepted bid's price update is
kept, a rejected bid leaves the auction as it was. -/
def bid_step (min_increment : ℚ) (auction_id : String) (a : Auction)
    (b : BidRequest) : Auction :=
  match place_bid a b.bidder_state b.amount min_increment
      b.previous_bid_lock_id auction_id b.time with
  | .ok r => r.1
  | .error _ => a

/-- Folds a sequence of bid attempts over an auction. -/
def run_bids (auction : Auction) (min_increment : ℚ) (auction_id : String)
    (bids : List BidRequest) : Auction :=
  bids.foldl (bid_step min_increment auction_id) auction

/-- The selection predicate of `WalletService.get_orders_ready_for_release`
(wallet_service.py 586-598): `DELIVERED`, the seller hold time set and passed,
and no early buyer confirmation. -/
def ready_for_release (o : Order) (now : Int) : Bool :=
  decide (o.status = OrderStatus.delivered) &&
  (match o.seller_hold_until with
   | some t => decide (t ≤ now)
   | none => false) &&
  decide (o.buyer_confirmed_at = none)

/-- `WalletService.get_orders_ready_for_release` (wallet_service.py 586-598)
over an order list: the ids of the selected orders. -/
def get_orders_ready_for_release (orders : List Order) (now : Int) :
    List String :=
  (orders.filter (fun o => ready_for_release o now)).map (fun o => o.id)

/-- `SchedulerService.release_expired_holds` (scheduler/tasks.py 207-249)
acting on one order: a selected order is re-checked for `DELIVERED` status,
its seller hold is released, and on release success its status becomes
`RELEASED`. The per-order outcome of `release_seller_hold` on the seller's
wallet is abstracted by the `holdReleased` predicate. -/
def release_holds_step (holdReleased : String → Bool) (now : Int)
    (o : Order) : Order :=
  if ready_for_release o now then
    if o.status = OrderStatus.delivered ∧ holdReleased o.id = true then
      { o with status := OrderStatus.released }
    else o
  else o

/-- The hold-release sweep over all orders (scheduler/tasks.py 207-249). -/
def release_expired_holds (orders : List Order)
    (holdReleased : String → Bool) (now : Int) : List Order :=
  orders.map (release_holds_step holdReleased now)

/-- `WalletService.create_wallet` (wallet_service.py 48-57): a fresh wallet
with zero balances. -/
def create_wallet : Wallet :=
  { total_balance := 0, locked_balance := 0 }

/-- The (total, locked) balance delta a transaction of a given type and amount
applies: the replay semantics of the ledger (create_transaction's branches). -/
def tx_delta (ty : TransactionType) (amount : ℚ) : ℚ × ℚ :=
  match ty with
  | .deposit | .sale_credit | .refund | .system_adjustment => (amount, 0)
  | .purchase_debit | .withdrawal | .fee_debit => (-amount, 0)
  | .lock => (0, amount)
  | .release => (0, -amount)
  | .hold_lock => (0, amount)
  | .hold_release => (amount, -amount)

/-- Replay a transaction list from given starting balances by the
type-specific deltas. -/
def replay_from (p : ℚ × ℚ) (txs : List Transaction) : ℚ × ℚ :=
  txs.foldl (fun acc t =>
    (acc.1 + (tx_delta t.type t.amount).1, acc.2 + (tx_delta t.type t.amount).2)) p

/-- Replay a wallet's transactions in creation order starting from zero. -/
def replay (txs : List Transaction) : ℚ × ℚ :=
  replay_from (0, 0) txs

/-- One balance-affecting ledger call on a wallet with its log: on success the
wallet advances and the transaction is appended; an `InsufficientFundsError`
raise leaves the state untouched (the raise precedes every mutation). -/
def apply_ledger_call (st : Wallet × List Transaction)
    (op : TransactionType × ℚ) : Wallet × List Transaction :=
  match create_transaction st.1 op.1 op.2 "" none none with
  | .error _ => st
  | .ok (w, tx) => (w, st.2 ++ [tx])

/-- Runs a sequence of ledger calls against a lazily created (zero-balance)
wallet with an empty log. -/
def run_ledger_calls (ops : List (TransactionType × ℚ)) :
    Wallet × List Transaction :=
  ops.foldl apply_ledger_call (create_wallet, [])

/-! ## Helper lemmas about the ledger -/

/-- A `release` call always succeeds and only lowers `locked_balance`. -/
theorem create_transaction_release_eq (w : Wallet) (a : ℚ) (d : String)
    (rt rid : Option String) :
    create_transaction w .release a d rt rid =
    .ok ({ w with locked_balance := w.locked_balance - a },
         { type := .release, amount := a, description := d, reference_type := rt,
           reference_id := rid, balance_before := w.total_balance,
           balance_after := w.total_balance, locked_before := w.locked_balance,
           locked_after := w.locked_balance - a }) := rfl

/-- A `hold_release` call always succeeds, credits the total and lowers the
locked balance. -/
theorem create_transaction_hold_release_eq (w : Wallet) (a : ℚ) (d : String)
    (rt rid : Option String) :
    create_transaction w .hold_release a d rt rid =
    .ok ({ total_balance := w.total_balance + a,
           locked_balance := w.locked_balance - a },
         { type := .hold_release, amount := a, description := d,
           reference_type := rt, reference_id := rid,
           balance_before := w.total_balance,
           balance_after := w.total_balance + a,
           locked_before := w.locked_balance,
           locked_after := w.locked_balance - a }) := rfl

/-- A `hold_lock` call always succeeds and only raises `locked_balance`. -/
theorem create_transaction_hold_lock_eq (w : Wallet) (a : ℚ) (d : String)
    (rt rid : Option String) :
    create_transaction w .hold_lock a d rt rid =
    .ok ({ w with locked_balance := w.locked_balance + a },
         { type := .hold_lock, amount := a, description := d,
           reference_type := rt, reference_id := rid,
           balance_before := w.total_balance, balance_after := w.total_balance,
           locked_before := w.locked_balance,
           locked_after := w.locked_balance + a }) := rfl

/-- A `lock` call under sufficient available balance raises `locked_balance`
only. -/
theorem create_transaction_lock_eq (w : Wallet) (a : ℚ) (d : String)
    (rt rid : Option String) (h : ¬ w.available_balance < a) :
    create_transaction w .lock a d rt rid =
    .ok ({ w with locked_balance := w.locked_balance + a },
         { type := .lock, amount := a, description := d, reference_type := rt,
           reference_id := rid, balance_before := w.total_balance,
           balance_after := w.total_balance, locked_before := w.locked_balance,
           locked_after := w.locked_balance + a }) := by
  simp only [create_transaction, if_neg h]

/-- Every successful ledger call snapshots both balances immediately before
and immediately after the call on the created transaction. -/
theorem create_transaction_snapshots (w : Wallet) (ty : TransactionType) (a : ℚ)
    (d : String) (rt rid : Option String) (w' : Wallet) (tx : Transaction)
    (h : create_transaction w ty a d rt rid = .ok (w', tx)) :
    tx.balance_before = w.total_balance ∧ tx.locked_before = w.locked_balance ∧
    tx.balance_after = w'.total_balance ∧ tx.locked_after = w'.locked_balance := by
  cases ty <;> simp only [create_transaction] at h <;> (try split at h) <;>
    simp_all <;> obtain ⟨h1, h2⟩ := h <;> subst h1 <;> subst h2 <;> simp

/-- Every successful ledger call moves the balances by exactly the
type-specific delta, and records the requested type and amount. -/
theorem create_transaction_delta (w : Wallet) (ty : TransactionType) (a : ℚ)
    (d : String) (rt rid : Option String) (w' : Wallet) (tx : Transaction)
    (h : create_transaction w ty a d rt rid = .ok (w', tx)) :
    w'.total_balance = w.total_balance + (tx_delta ty a).1 ∧
    w'.locked_balance = w.locked_balance + (tx_delta ty a).2 ∧
    tx.type = ty ∧ tx.amount = a := by
  cases ty <;> simp only [create_transaction] at h <;> (try split at h) <;>
    simp_all [tx_delta] <;> obtain ⟨h1, h2⟩ := h <;> subst h1 <;> subst h2 <;>
    simp [tx_delta] <;> ring

/-- A debit or lock raises `InsufficientFundsError` exactly when the available
balance does not cover the amount. -/
theorem create_transaction_error_iff (w : Wallet) (ty : TransactionType) (a : ℚ)
    (d : String) (rt rid : Option String)
    (hty : ty = TransactionType.purchase_debit ∨ ty = TransactionType.withdrawal ∨
      ty = TransactionType.fee_debit ∨ ty = TransactionType.lock) :
    create_transaction w ty a d rt rid = .error .insufficientFunds ↔
      w.available_balance < a := by
  rcases hty with h | h | h | h <;> subst h <;>
    constructor <;> intro hx <;>
    simp only [create_transaction] at hx ⊢ <;>
    first
      | (by_contra hc; rw [if_neg hc] at hx; exact Except.noConfusion hx)
      | rw [if_pos hx]

/-- Replaying distributes over list append. -/
theorem replay_from_append (p : ℚ × ℚ) (l1 l2 : List Transaction) :
    replay_from p (l1 ++ l2) = replay_from (replay_from p l1) l2 := by
  simp [replay_from, List.foldl_append]

/-- Appending one transaction to a replayed log adds its delta. -/
theorem replay_append_singleton (l : List Transaction) (t : Transaction) :
    replay (l ++ [t]) =
      ((replay l).1 + (tx_delta t.type t.amount).1,
       (replay l).2 + (tx_delta t.type t.amount).2) := by
  simp [replay, replay_from_append, replay_from]

/-- One ledger call preserves the replay invariant: the log replayed from zero
equals the wallet's current balances. -/
theorem apply_ledger_call_invariant (st : Wallet × List Transaction)
    (op : TransactionType × ℚ)
    (h : replay st.2 = (st.1.total_balance, st.1.locked_balance)) :
    replay (apply_ledger_call st op).2 =
      ((apply_ledger_call st op).1.total_balance,
       (apply_ledger_call st op).1.locked_balance) := by
  unfold apply_ledger_call
  cases hc : create_transaction st.1 op.1 op.2 "" none none with
  | error e => exact h
  | ok r =>
      obtain ⟨w, tx⟩ := r
      obtain ⟨hd1, hd2, hd3, hd4⟩ :=
        create_transaction_delta st.1 op.1 op.2 "" none none w tx hc
      simp only []
      rw [replay_append_singleton, h]
      simp [hd1, hd2, hd3, hd4]

/-- The replay invariant holds along any sequence of ledger calls. -/
theorem run_ledger_calls_replay_aux (ops : List (TransactionType × ℚ))
    (st : Wallet × List Transaction)
    (h : replay st.2 = (st.1.total_balance, st.1.locked_balance)) :
    replay (ops.foldl apply_ledger_call st).2 =
      ((ops.foldl apply_ledger_call st).1.total_balance,
       (ops.foldl apply_ledger_call st).1.locked_balance) := by
  induction ops generalizing st with
  | nil => exact h
  | cons op ops ih =>
      exact ih (apply_ledger_call st op) (apply_ledger_call_invariant st op h)

/-! ## Claim theorems -/

/-- Claim C2: every balance-affecting call records the wallet's total and
locked balances immediately before and immediately after the call on the
resulting transaction, and folding all of a wallet's transactions in creation
order from (0, 0) by each transaction's type-specific balance delta reproduces
the wallet's current `total_balance` and `locked_balance` exactly. -/
theorem ledger_replay_reproduces_balances :
    (∀ (w : Wallet) (ty : TransactionType) (a : ℚ) (d : String)
       (rt rid : Option String) (w' : Wallet) (tx : Transaction),
        create_transaction w ty a d rt rid = .ok (w', tx) →
        tx.balance_before = w.total_balance ∧ tx.locked_before = w.locked_balance ∧
        tx.balance_after = w'.total_balance ∧ tx.locked_after = w'.locked_balance) ∧
    (∀ ops : List (TransactionType × ℚ),
        replay (run_ledger_calls ops).2 =
          ((run_ledger_calls ops).1.total_balance,
           (run_ledger_calls ops).1.locked_balance)) := by
  constructor
  · exact create_transaction_snapshots
  · intro ops
    exact run_ledger_calls_replay_aux ops (create_wallet, [])
      (by simp [replay, replay_from, create_wallet])

/-- Witness for C2: the snapshot part applied to a concrete deposit of 5 on a
wallet holding (10, 2). -/
theorem ledger_replay_reproduces_balances_witness :
    ∃ (w' : Wallet) (tx : Transaction),
      create_transaction { total_balance := 10, locked_balance := 2 }
        TransactionType.deposit 5 "d" none none = .ok (w', tx) ∧
      (tx.balance_before = 10 ∧ tx.locked_before = 2 ∧
       tx.balance_after = w'.total_balance ∧ tx.locked_after = w'.locked_balance) := by
  exact ⟨_, _, rfl, ledger_replay_reproduces_balances.1
    { total_balance := 10, locked_balance := 2 } .deposit 5 "d" none none _ _ rfl⟩

/-- Claim C3: a ledger debit (purchase_debit, withdrawal, fee_debit) or lock —
including the fund-lock manager's create path — raises `InsufficientFundsError`
exactly when the available balance is strictly below the amount; the raise
happens before any mutation, so the error branch carries no new state (wallet
untouched, no transaction, no lock); on success a debit lowers
`total_balance` by the amount and a lock raises `locked_balance` by it with
`total_balance` unchanged. -/
theorem debit_lock_insufficient_iff :
    (∀ (w : Wallet) (a : ℚ) (ty : TransactionType) (d : String)
       (rt rid : Option String),
      (ty = TransactionType.purchase_debit ∨ ty = TransactionType.withdrawal ∨
       ty = TransactionType.fee_debit ∨ ty = TransactionType.lock) →
      ((create_transaction w ty a d rt rid = .error .insufficientFunds) ↔
        w.available_balance < a) ∧
      (∀ (w' : Wallet) (tx : Transaction),
        create_transaction w ty a d rt rid = .ok (w', tx) →
        (ty = TransactionType.lock →
          w'.locked_balance = w.locked_balance + a ∧
          w'.total_balance = w.total_balance) ∧
        (ty ≠ TransactionType.lock →
          w'.total_balance = w.total_balance - a ∧
          w'.locked_balance = w.locked_balance))) ∧
    (∀ (st : WalletState) (a : ℚ) (r rty rid : String) (ex : Option Int),
      ((create_fund_lock st a r rty rid ex = .error .insufficientFunds) ↔
        st.wallet.available_balance < a) ∧
      (∀ (st' : WalletState) (fl : FundLock),
        create_fund_lock st a r rty rid ex = .ok (st', fl) →
        st'.wallet.locked_balance = st.wallet.locked_balance + a ∧
        st'.wallet.total_balance = st.wallet.total_balance ∧
        st'.transactions.length = st.transactions.length + 1)) := by
  constructor
  · intro w a ty d rt rid hty
    refine ⟨create_transaction_error_iff w ty a d rt rid hty, ?_⟩
    intro w' tx hok
    obtain ⟨hd1, hd2, _, _⟩ := create_transaction_delta w ty a d rt rid w' tx hok
    rcases hty with h | h | h | h <;> subst h <;>
      simp [tx_delta] at hd1 hd2 <;>
      refine ⟨fun hl => ?_, fun hl => ?_⟩ <;> simp_all <;> ring
  · intro st a r rty rid ex
    by_cases hc : st.wallet.available_balance < a
    · have hca : st.wallet.can_afford a = false := by
        simp [Wallet.can_afford]
        exact hc
      constructor
      · simp [create_fund_lock, hca, hc]
      · intro st' fl hok
        simp [create_fund_lock, hca] at hok
    · have hca : st.wallet.can_afford a = true := by
        simp [Wallet.can_afford]
        exact not_lt.mp hc
      constructor
      · simp [create_fund_lock, hca, create_transaction_lock_eq _ _ _ _ _ hc, hc]
      · intro st' fl hok
        simp [create_fund_lock, hca,
          create_transaction_lock_eq _ _ _ _ _ hc] at hok
        obtain ⟨h1, h2⟩ := hok
        subst h1
        simp

/-- Witness for C3: a withdrawal of 4 from a wallet with available balance 3
raises `InsufficientFundsError`. -/
theorem debit_lock_insufficient_iff_witness :
    create_transaction { total_balance := 3, locked_balance := 0 }
      TransactionType.withdrawal 4 "d" none none = .error .insufficientFunds := by
  exact ((debit_lock_insufficient_iff.1 _ 4 .withdrawal "d" none none
    (by simp)).1).mpr (by norm_num [Wallet.available_balance])

/-- Claim C1 (code-bug exhibit): the `hold_lock` branch of
`create_transaction` raises `locked_balance` with no available-balance check,
so on a fresh seller wallet — where `0 ≤ locked_balance ≤ total_balance` holds
before the call — the hold of 47.5 from the spec's own purchase scenario
leaves `locked_balance = 47.5 > 0 = total_balance`, violating the invariant
and the wallets table's own `chk_locked_within_total` constraint. -/
theorem hold_lock_violates_invariant :
    ∃ (w : Wallet) (tx : Transaction),
      create_transaction { total_balance := 0, locked_balance := 0 }
        TransactionType.hold_lock (95/2) "hold" none none = .ok (w, tx) ∧
      ¬ w.locked_balance ≤ w.total_balance := by
  refine ⟨_, _, create_transaction_hold_lock_eq _ _ _ _ _, ?_⟩
  norm_num

/-- Claim C6: scenario — a buyer holding (100, 0) buys an item priced 50 with
the 2% buyer fee: a single `purchase_debit` of 51 leaves the buyer with total
and available 49; the unverified seller (5% fee) gets a `hold_lock` of 47.5,
and releasing the seller hold afterwards credits the seller's total by 47.5
and lowers the locked balance by 47.5. -/
theorem purchase_scenario_fifty :
    ∀ (seller : Wallet) (oid : String) (bw sw : Wallet) (btx stx : Transaction),
      process_purchase { total_balance := 100, locked_balance := 0 } seller 50
        oid false = .ok ((bw, btx), (sw, stx)) →
      btx.type = TransactionType.purchase_debit ∧ btx.amount = 51 ∧
      bw.total_balance = 49 ∧ bw.available_balance = 49 ∧
      stx.type = TransactionType.hold_lock ∧ stx.amount = 95 / 2 ∧
      sw.total_balance = seller.total_balance ∧
      sw.locked_balance = seller.locked_balance + 95 / 2 ∧
      (∃ (sw' : Wallet) (txs' : List Transaction),
        release_seller_hold sw [stx] oid false = some ((sw', txs'), true) ∧
        sw'.total_balance = sw.total_balance + 95 / 2 ∧
        sw'.locked_balance = sw.locked_balance - 95 / 2) := by
  intro seller oid bw sw btx stx hok
  have heval : process_purchase { total_balance := 100, locked_balance := 0 }
      seller 50 oid false =
      .ok (({ total_balance := 49, locked_balance := 0 },
            { type := .purchase_debit, amount := 51,
              description := "רכישת קופון",
              reference_type := some "order", reference_id := some oid,
              balance_before := 100, balance_after := 49,
              locked_before := 0, locked_after := 0 }),
           ({ seller with locked_balance := seller.locked_balance + 95/2 },
            { type := .hold_lock, amount := 95/2,
              description := "החזקת תשלום למוכר",
              reference_type := some "order", reference_id := some oid,
              balance_before := seller.total_balance,
              balance_after := seller.total_balance,
              locked_before := seller.locked_balance,
              locked_after := seller.locked_balance + 95/2 })) := by
    norm_num [process_purchase, calculate_fees, create_transaction,
      Wallet.available_balance, BUYER_FEE_PERCENT, SELLER_UNVERIFIED_FEE_PERCENT]
  rw [heval] at hok
  simp only [Except.ok.injEq, Prod.mk.injEq] at hok
  obtain ⟨⟨hbw, hbtx⟩, hsw, hstx⟩ := hok
  subst hbw
  subst hbtx
  subst hsw
  subst hstx
  refine ⟨rfl, rfl, rfl, by norm_num [Wallet.available_balance], rfl, rfl, rfl,
    rfl, ?_⟩
  have hrel : release_seller_hold
      { seller with locked_balance := seller.locked_balance + 95/2 }
      [{ type := .hold_lock, amount := 95/2,
         description := "החזקת תשלום למוכר",
         reference_type := some "order", reference_id := some oid,
         balance_before := seller.total_balance,
         balance_after := seller.total_balance,
         locked_before := seller.locked_balance,
         locked_after := seller.locked_balance + 95/2 }] oid false =
      some (({ total_balance := seller.total_balance + 95/2,
               locked_balance := seller.locked_balance + 95/2 - 95/2 },
             [{ type := .hold_lock, amount := 95/2,
                description := "החזקת תשלום למוכר",
                reference_type := some "order", reference_id := some oid,
                balance_before := seller.total_balance,
                balance_after := seller.total_balance,
                locked_before := seller.locked_balance,
                locked_after := seller.locked_balance + 95/2 },
              { type := .hold_release, amount := 95/2,
                description := "שחרור תשלום למוכר: שחרור אוטומטי",
                reference_type := some "order", reference_id := some oid,
                balance_before := seller.total_balance,
                balance_after := seller.total_balance + 95/2,
                locked_before := seller.locked_balance + 95/2,
                locked_after := seller.locked_balance + 95/2 - 95/2 }]), true) := by
    simp [release_seller_hold, is_hold_lock_for, create_transaction]
  exact ⟨_, _, hrel, by norm_num, by norm_num⟩

/-- Witness for C6: the scenario run with a seller starting from (0, 0). -/
theorem purchase_scenario_fifty_witness :
    ∃ (bw sw : Wallet) (btx stx : Transaction),
      process_purchase { total_balance := 100, locked_balance := 0 }
        { total_balance := 0, locked_balance := 0 } 50 "o1" false
        = .ok ((bw, btx), (sw, stx)) ∧
      btx.amount = 51 ∧ stx.amount = 95 / 2 := by
  have heq : process_purchase { total_balance := 100, locked_balance := 0 }
      { total_balance := 0, locked_balance := 0 } 50 "o1" false =
      .ok (({ total_balance := 49, locked_balance := 0 },
            { type := .purchase_debit, amount := 51,
              description := "רכישת קופון",
              reference_type := some "order", reference_id := some "o1",
              balance_before := 100, balance_after := 49,
              locked_before := 0, locked_after := 0 }),
           ({ total_balance := 0, locked_balance := 95/2 },
            { type := .hold_lock, amount := 95/2,
              description := "החזקת תשלום למוכר",
              reference_type := some "order", reference_id := some "o1",
              balance_before := 0, balance_after := 0,
              locked_before := 0, locked_after := 95/2 })) := by
    norm_num [process_purchase, calculate_fees, create_transaction,
      Wallet.available_balance, BUYER_FEE_PERCENT, SELLER_UNVERIFIED_FEE_PERCENT]
  have h := purchase_scenario_fifty { total_balance := 0, locked_balance := 0 }
    "o1" _ _ _ _ heq
  exact ⟨_, _, _, _, heq, h.2.1, h.2.2.2.2.2.1⟩

/-- Claim C7: lock symmetry — creating a fund lock and then releasing that
same lock returns `locked_balance` to its pre-lock value, and neither call
changes `total_balance`. The freshness hypothesis mirrors uuid uniqueness of
lock ids. -/
theorem lock_release_symmetry :
    ∀ (st : WalletState) (a : ℚ) (r rty rid : String) (ex : Option Int)
      (now : Int) (st1 : WalletState) (fl : FundLock),
      (∀ l ∈ st.fund_locks, l.id < st.next_lock_id) →
      create_fund_lock st a r rty rid ex = .ok (st1, fl) →
      st1.wallet.total_balance = st.wallet.total_balance ∧
      st1.wallet.locked_balance = st.wallet.locked_balance + a ∧
      ∃ (st2 : WalletState),
        release_fund_lock st1 fl.id now = .ok (st2, true) ∧
        st2.wallet.locked_balance = st.wallet.locked_balance ∧
        st2.wallet.total_balance = st.wallet.total_balance := by
  intro st a r rty rid ex now st1 fl hfresh hok
  by_cases hc : st.wallet.available_balance < a
  · have hca : st.wallet.can_afford a = false := by
      simp [Wallet.can_afford]
      exact hc
    simp [create_fund_lock, hca] at hok
  · have hca : st.wallet.can_afford a = true := by
      simp [Wallet.can_afford]
      exact not_lt.mp hc
    rw [create_fund_lock] at hok
    simp only [hca, Bool.not_true, Bool.false_eq_true, if_false,
      create_transaction_lock_eq _ _ _ _ _ hc, Except.ok.injEq,
      Prod.mk.injEq] at hok
    obtain ⟨h1, h2⟩ := hok
    subst h1
    subst h2
    refine ⟨rfl, rfl, ?_⟩
    rw [release_fund_lock]
    have hfind : List.find?
        (fun l => decide (l.id = st.next_lock_id ∧ l.is_active = true))
        (st.fund_locks ++
          [{ id := st.next_lock_id, amount := a, reason := r,
             reference_type := rty, reference_id := rid, is_active := true,
             expires_at := ex, released_at := none }]) =
        some { id := st.next_lock_id, amount := a, reason := r,
               reference_type := rty, reference_id := rid, is_active := true,
               expires_at := ex, released_at := none } := by
      rw [List.find?_append]
      have hn : List.find?
          (fun l => decide (l.id = st.next_lock_id ∧ l.is_active = true))
          st.fund_locks = none := by
        rw [List.find?_eq_none]
        intro x hx
        simp only [decide_eq_true_eq, not_and]
        intro hid
        exact absurd hid (Nat.ne_of_lt (hfresh x hx))
      rw [hn]
      simp [List.find?]
    simp only [hfind]
    rw [create_transaction_release_eq]
    refine ⟨_, rfl, ?_, ?_⟩ <;> simp

/-- Witness state for C7: wallet holding (10, 0), no locks yet. -/
def c7_state : WalletState :=
  { wallet := { total_balance := 10, locked_balance := 0 },
    transactions := [], fund_locks := [], next_lock_id := 0 }

def c7_lock_tx : Transaction :=
  { type := .lock, amount := 4, description := "נעילת כספים: " ++ "r",
    reference_type := some "auction", reference_id := some "a1",
    balance_before := 10, balance_after := 10,
    locked_before := 0, locked_after := 0 + 4 }

def c7_lock : FundLock :=
  { id := 0, amount := 4, reason := "r", reference_type := "auction",
    reference_id := "a1", is_active := true, expires_at := none,
    released_at := none }

theorem lock_release_symmetry_witness :
    ∃ (st1 : WalletState) (fl : FundLock),
      create_fund_lock c7_state 4 "r" "auction" "a1" none = .ok (st1, fl) ∧
      st1.wallet.total_balance = c7_state.wallet.total_balance ∧
      st1.wallet.locked_balance = c7_state.wallet.locked_balance + 4 ∧
      ∃ (st2 : WalletState),
        release_fund_lock st1 fl.id 7 = .ok (st2, true) ∧
        st2.wallet.locked_balance = c7_state.wallet.locked_balance ∧
        st2.wallet.total_balance = c7_state.wallet.total_balance := by
  have heq : create_fund_lock c7_state 4 "r" "auction" "a1" none = .ok
      ({ wallet := { total_balance := 10, locked_balance := 0 + 4 },
         transactions := [c7_lock_tx], fund_locks := [c7_lock],
         next_lock_id := 1 }, c7_lock) := by
    norm_num [c7_state, c7_lock_tx, c7_lock, create_fund_lock,
      Wallet.can_afford, Wallet.available_balance, create_transaction]
  have h := lock_release_symmetry c7_state 4 "r" "auction" "a1" none 7 _ _
    (by simp [c7_state]) heq
  exact ⟨_, _, heq, h.1, h.2.1, h.2.2⟩

/-- Claim C8: releasing the same lock id twice changes state only once — the
first call on an active lock releases it and returns true; the second call
finds no active lock with that id, returns false, and returns the state
entirely unchanged (no transaction, balances and lock records untouched). -/
theorem release_lock_idempotent :
    ∀ (st : WalletState) (lock_id : Nat) (now now2 : Int) (st1 : WalletState),
      release_fund_lock st lock_id now = .ok (st1, true) →
      release_fund_lock st1 lock_id now2 = .ok (st1, false) := by
  intro st lock_id now now2 st1 h1
  rw [release_fund_lock] at h1
  cases hfind : List.find? (fun l => decide (l.id = lock_id ∧ l.is_active = true))
      st.fund_locks with
  | none =>
      rw [hfind] at h1
      simp at h1
  | some fl =>
      rw [hfind] at h1
      dsimp only at h1
      rw [create_transaction_release_eq] at h1
      dsimp only at h1
      simp only [Except.ok.injEq, Prod.mk.injEq] at h1
      obtain ⟨h1', _⟩ := h1
      subst h1'
      rw [release_fund_lock]
      have hnone : List.find?
          (fun l => decide (l.id = lock_id ∧ l.is_active = true))
          (List.map (fun l => if l.id = lock_id ∧ l.is_active = true then
              { l with is_active := false, released_at := some now } else l)
            st.fund_locks) = none := by
        rw [List.find?_map]
        have hin : List.find? ((fun l => decide (l.id = lock_id ∧ l.is_active = true)) ∘
            (fun l => if l.id = lock_id ∧ l.is_active = true then
              { l with is_active := false, released_at := some now } else l))
            st.fund_locks = none := by
          rw [List.find?_eq_none]
          intro x hx
          simp only [Function.comp]
          by_cases hid : x.id = lock_id ∧ x.is_active = true <;>
            simp [hid]
        rw [hin]
        rfl
      dsimp only
      rw [hnone]

/-- Witness data for C8: a concrete state with one active lock, released
twice. -/
def c8_lock : FundLock :=
  { id := 0, amount := 5, reason := "r", reference_type := "auction",
    reference_id := "a1", is_active := true, expires_at := none,
    released_at := none }

def c8_state : WalletState :=
  { wallet := { total_balance := 10, locked_balance := 5 },
    transactions := [], fund_locks := [c8_lock], next_lock_id := 1 }

def c8_release_tx : Transaction :=
  { type := .release, amount := 5, description := "שחרור נעילה: " ++ "r",
    reference_type := some "auction", reference_id := some "a1",
    balance_before := 10, balance_after := 10,
    locked_before := 5, locked_after := 5 - 5 }

theorem release_lock_idempotent_witness :
    ∃ (st1 : WalletState),
      release_fund_lock c8_state 0 3 = .ok (st1, true) ∧
      release_fund_lock st1 0 9 = .ok (st1, false) := by
  have heq : release_fund_lock c8_state 0 3 = .ok
      ({ wallet := { total_balance := 10, locked_balance := 5 - 5 },
         transactions := [c8_release_tx],
         fund_locks := [{ c8_lock with
                          is_active := false
                          released_at := some 3 }],
         next_lock_id := 1 }, true) := by
    norm_num [c8_state, c8_lock, c8_release_tx, release_fund_lock,
      List.find?, create_transaction]
  exact ⟨_, heq, release_lock_idempotent _ 0 3 9 _ heq⟩

/-- Claim C10: `release_seller_hold` has no repetition guard — every call that
finds the order's single `hold_lock` transaction of amount h records another
`hold_release`, crediting the seller's total and lowering the locked balance
by h again, so two successive calls credit 2h in total. -/
theorem seller_hold_double_release :
    ∀ (w : Wallet) (txs : List Transaction) (oid : String) (t : Transaction)
      (er er2 : Bool),
      txs.filter (is_hold_lock_for oid) = [t] →
      ∃ (w1 : Wallet) (txs1 : List Transaction) (w2 : Wallet)
        (txs2 : List Transaction),
        release_seller_hold w txs oid er = some ((w1, txs1), true) ∧
        w1.total_balance = w.total_balance + t.amount ∧
        w1.locked_balance = w.locked_balance - t.amount ∧
        release_seller_hold w1 txs1 oid er2 = some ((w2, txs2), true) ∧
        w2.total_balance = w.total_balance + 2 * t.amount ∧
        w2.locked_balance = w.locked_balance - 2 * t.amount := by
  intro w txs oid t er er2 hfilter
  have h1 : release_seller_hold w txs oid er =
      some (({ total_balance := w.total_balance + t.amount,
               locked_balance := w.locked_balance - t.amount },
             txs ++
              [{ type := .hold_release, amount := t.amount,
                 description := (if er then "שחרור תשלום למוכר: אישור מוקדם של הקונה"
                   else "שחרור תשלום למוכר: שחרור אוטומטי"),
                 reference_type := some "order", reference_id := some oid,
                 balance_before := w.total_balance,
                 balance_after := w.total_balance + t.amount,
                 locked_before := w.locked_balance,
                 locked_after := w.locked_balance - t.amount }]), true) := by
    rw [release_seller_hold, hfilter]
    dsimp only
    rw [create_transaction_hold_release_eq]
  have hnot : List.filter (is_hold_lock_for oid)
      [({ type := .hold_release, amount := t.amount,
          description := (if er then "שחרור תשלום למוכר: אישור מוקדם של הקונה"
            else "שחרור תשלום למוכר: שחרור אוטומטי"),
          reference_type := some "order", reference_id := some oid,
          balance_before := w.total_balance,
          balance_after := w.total_balance + t.amount,
          locked_before := w.locked_balance,
          locked_after := w.locked_balance - t.amount } : Transaction)] = [] := by
    simp [is_hold_lock_for]
  have h2 : release_seller_hold
      { total_balance := w.total_balance + t.amount,
        locked_balance := w.locked_balance - t.amount }
      (txs ++
        [{ type := .hold_release, amount := t.amount,
           description := (if er then "שחרור תשלום למוכר: אישור מוקדם של הקונה"
             else "שחרור תשלום למוכר: שחרור אוטומטי"),
           reference_type := some "order", reference_id := some oid,
           balance_before := w.total_balance,
           balance_after := w.total_balance + t.amount,
           locked_before := w.locked_balance,
           locked_after := w.locked_balance - t.amount }]) oid er2 =
      some (({ total_balance := w.total_balance + t.amount + t.amount,
               locked_balance := w.locked_balance - t.amount - t.amount },
             txs ++
              [{ type := .hold_release, amount := t.amount,
                 description := (if er then "שחרור תשלום למוכר: אישור מוקדם של הקונה"
                   else "שחרור תשלום למוכר: שחרור אוטומטי"),
                 reference_type := some "order", reference_id := some oid,
                 balance_before := w.total_balance,
                 balance_after := w.total_balance + t.amount,
                 locked_before := w.locked_balance,
                 locked_after := w.locked_balance - t.amount }] ++
              [{ type := .hold_release, amount := t.amount,
                 description := (if er2 then "שחרור תשלום למוכר: אישור מוקדם של הקונה"
                   else "שחרור תשלום למוכר: שחרור אוטומטי"),
                 reference_type := some "order", reference_id := some oid,
                 balance_before := w.total_balance + t.amount,
                 balance_after := w.total_balance + t.amount + t.amount,
                 locked_before := w.locked_balance - t.amount,
                 locked_after := w.locked_balance - t.amount - t.amount }]), true) := by
    rw [release_seller_hold, List.filter_append, hfilter, hnot, List.append_nil]
    dsimp only
    rw [create_transaction_hold_release_eq]
  exact ⟨_, _, _, _, h1, rfl, rfl, h2, by dsimp only; ring, by dsimp only; ring⟩

/-- Witness data for C10: a concrete hold of 47.5 released twice. -/
def c10_hold_tx : Transaction :=
  { type := .hold_lock, amount := 95/2, description := "h",
    reference_type := some "order", reference_id := some "o1",
    balance_before := 0, balance_after := 0,
    locked_before := 0, locked_after := 95/2 }

theorem seller_hold_double_release_witness :
    ∃ (w1 : Wallet) (txs1 : List Transaction) (w2 : Wallet)
      (txs2 : List Transaction),
      release_seller_hold { total_balance := 0, locked_balance := 95/2 }
        [c10_hold_tx] "o1" false = some ((w1, txs1), true) ∧
      w1.total_balance = (0 : ℚ) + c10_hold_tx.amount ∧
      w1.locked_balance = (95/2 : ℚ) - c10_hold_tx.amount ∧
      release_seller_hold w1 txs1 "o1" false = some ((w2, txs2), true) ∧
      w2.total_balance = (0 : ℚ) + 2 * c10_hold_tx.amount ∧
      w2.locked_balance = (95/2 : ℚ) - 2 * c10_hold_tx.amount := by
  exact seller_hold_double_release
    { total_balance := 0, locked_balance := 95/2 } [c10_hold_tx] "o1"
    c10_hold_tx false false (by simp [is_hold_lock_for, c10_hold_tx])

/-- A blank order, used as the concrete order of the timing exhibits. -/
def c4_order : Order :=
  { id := "o1", status := OrderStatus.pending, purchased_at := none,
    dispute_window_until := none, seller_hold_until := none,
    buyer_confirmed_at := none, reported_at := none, dispute_reason := none,
    dispute_description := none, delivered_at := none, coupon_data := none }

/-- Claim C4 (counterexample): an order marked paid at time 0 — so
`purchased_at = T = 0` — and delivered one hour later gets
`dispute_window_until = 46800 s`, not `T + 12h = 43200 s`:
`mark_order_delivered` calls `set_purchase_timers`, which overwrites
`purchased_at` with the delivery time and bases both timers on it. -/
theorem dispute_window_not_from_paid_time :
    (mark_order_delivered (mark_order_paid c4_order 0) "data" 3600).dispute_window_until
      = some 46800 ∧
    ¬ (mark_order_delivered (mark_order_paid c4_order 0) "data" 3600).dispute_window_until
      = some (0 + 12 * 3600) ∧
    ¬ (mark_order_delivered (mark_order_paid c4_order 0) "data" 3600).purchased_at
      = some 0 := by
  refine ⟨rfl, by decide, by decide⟩

/-- Claim C4 (amended): `mark_order_delivered` at delivery time D overwrites
`purchased_at := D` and sets `dispute_window_until = D + 12h` and
`seller_hold_until = D + 24h`; for an order not yet reported, `report_dispute`
succeeds at `D + 11h59m` and fails with the invalid-transition error at
`D + 12h01m`. -/
theorem dispute_window_timers_from_delivery :
    ∀ (o : Order) (cd : String) (D : Int) (r : DisputeReason) (d : String),
      o.reported_at = none →
      (mark_order_delivered o cd D).purchased_at = some D ∧
      (mark_order_delivered o cd D).dispute_window_until = some (D + 12 * 3600) ∧
      (mark_order_delivered o cd D).seller_hold_until = some (D + 24 * 3600) ∧
      (∃ o', report_dispute (mark_order_delivered o cd D) r d (D + 43140) = .ok o' ∧
        o'.status = OrderStatus.in_dispute) ∧
      report_dispute (mark_order_delivered o cd D) r d (D + 43260) =
        .error .invalidTransition := by
  intro o cd D r d hrep
  refine ⟨rfl, rfl, rfl, ?_, ?_⟩
  · have hcan : (mark_order_delivered o cd D).can_report_dispute (D + 43140) = true := by
      simp [mark_order_delivered, Order.set_purchase_timers,
        Order.can_report_dispute, Order.is_dispute_window_open, hrep]
    have heq : report_dispute (mark_order_delivered o cd D) r d (D + 43140) =
        .ok { mark_order_delivered o cd D with
              status := OrderStatus.in_dispute
              reported_at := some (D + 43140)
              dispute_reason := some r
              dispute_description := some d } := by
      rw [report_dispute, hcan]
      rfl
    exact ⟨_, heq, rfl⟩
  · have hcan : (mark_order_delivered o cd D).can_report_dispute (D + 43260) = false := by
      simp [mark_order_delivered, Order.set_purchase_timers,
        Order.can_report_dispute, Order.is_dispute_window_open]
    rw [report_dispute, hcan]
    rfl

/-- Witness for the amended C4 at `D = 100` on a blank order. -/
theorem dispute_window_timers_from_delivery_witness :
    (mark_order_delivered c4_order "x" 100).purchased_at = some 100 ∧
    (mark_order_delivered c4_order "x" 100).dispute_window_until = some (100 + 12 * 3600) ∧
    (mark_order_delivered c4_order "x" 100).seller_hold_until = some (100 + 24 * 3600) ∧
    (∃ o', report_dispute (mark_order_delivered c4_order "x" 100)
        DisputeReason.other "y" (100 + 43140) = .ok o' ∧
      o'.status = OrderStatus.in_dispute) ∧
    report_dispute (mark_order_delivered c4_order "x" 100)
        DisputeReason.other "y" (100 + 43260) = .error .invalidTransition := by
  exact dispute_window_timers_from_delivery c4_order "x" 100 .other "y" rfl

/-- Claim C5: an `in_dispute` order is never selected by
`get_orders_ready_for_release` and is left untouched by the hold-release
sweep, for every current time — in particular at or past its
`seller_hold_until`. -/
theorem in_dispute_never_auto_released :
    ∀ (o : Order) (orders : List Order) (hr : String → Bool) (now : Int),
      o.status = OrderStatus.in_dispute →
      ready_for_release o now = false ∧
      get_orders_ready_for_release [o] now = [] ∧
      release_holds_step hr now o = o ∧
      (o ∈ orders → o ∈ release_expired_holds orders hr now) := by
  intro o orders hr now hst
  have hr0 : ready_for_release o now = false := by
    simp [ready_for_release, hst]
  refine ⟨hr0, ?_, ?_, ?_⟩
  · simp [get_orders_ready_for_release, List.filter, hr0]
  · simp [release_holds_step, hr0]
  · intro hmem
    have hstep : release_holds_step hr now o = o := by
      simp [release_holds_step, hr0]
    have h2 := List.mem_map_of_mem (release_holds_step hr now) hmem
    rw [release_expired_holds]
    rwa [hstep] at h2

/-- Witness order for C5: in dispute, with `seller_hold_until = 86400` long
past at the sweep time 100000. -/
def c5_order : Order :=
  { id := "o2", status := OrderStatus.in_dispute, purchased_at := some 0,
    dispute_window_until := some 43200, seller_hold_until := some 86400,
    buyer_confirmed_at := none, reported_at := some 100,
    dispute_reason := some DisputeReason.other, dispute_description := some "y",
    delivered_at := some 0, coupon_data := some "x" }

/-- Witness for C5 at the concrete in-dispute order and a sweep time past its
hold deadline. -/
theorem in_dispute_never_auto_released_witness :
    ready_for_release c5_order 100000 = false ∧
    get_orders_ready_for_release [c5_order] 100000 = [] ∧
    release_holds_step (fun _ => true) 100000 c5_order = c5_order ∧
    (c5_order ∈ [c5_order] →
      c5_order ∈ release_expired_holds [c5_order] (fun _ => true) 100000) := by
  exact in_dispute_never_auto_released c5_order [c5_order] (fun _ => true)
    100000 rfl

/-- An accepted bid never lowers the price: acceptance requires the amount to
reach `current_price + min_increment`. -/
theorem place_bid_price_mono (auction : Auction) (st : WalletState)
    (amount min_increment : ℚ) (prev : Option Nat) (aid : String) (now : Int)
    (hpos : 0 ≤ min_increment) (a' : Auction) (r : WalletState × FundLock)
    (h : place_bid auction st amount min_increment prev aid now = .ok (a', r)) :
    auction.current_price ≤ a'.current_price := by
  rw [place_bid] at h
  by_cases hact : auction.is_active now
  · rw [hact] at h
    simp only [Bool.not_true, Bool.false_eq_true, if_false] at h
    by_cases hlow : amount < auction.current_price + min_increment
    · rw [if_pos hlow] at h
      exact absurd h (by simp)
    · rw [if_neg hlow] at h
      cases hpb : place_auction_bid st aid amount prev now with
      | error e =>
          rw [hpb] at h
          exact absurd h (by simp)
      | ok stfl =>
          rw [hpb] at h
          simp only [Except.ok.injEq, Prod.mk.injEq] at h
          obtain ⟨h1, _⟩ := h
          subst h1
          have := not_lt.mp hlow
          simp only []
          linarith
  · rw [Bool.not_eq_true] at hact
    rw [hact] at h
    exact absurd h (by simp)

/-- One bid attempt never lowers the price. -/
theorem bid_step_price_mono (min_increment : ℚ) (aid : String)
    (hpos : 0 ≤ min_increment) (a : Auction) (b : BidRequest) :
    a.current_price ≤ (bid_step min_increment aid a b).current_price := by
  rw [bid_step]
  cases hpb : place_bid a b.bidder_state b.amount min_increment
      b.previous_bid_lock_id aid b.time with
  | ok r =>
      dsimp only
      exact place_bid_price_mono a b.bidder_state b.amount min_increment
        b.previous_bid_lock_id aid b.time hpos r.1 r.2 (by rw [hpb])
  | error e =>
      dsimp only
      exact le_refl _

/-- Any sequence of bid attempts never lowers the price. -/
theorem run_bids_price_mono (min_increment : ℚ) (aid : String)
    (hpos : 0 ≤ min_increment) (bids : List BidRequest) (auction : Auction) :
    auction.current_price ≤ (run_bids auction min_increment aid bids).current_price := by
  induction bids generalizing auction with
  | nil => simp [run_bids]
  | cons b bids ih =>
      calc auction.current_price
          ≤ (bid_step min_increment aid auction b).current_price :=
            bid_step_price_mono min_increment aid hpos auction b
        _ ≤ (run_bids (bid_step min_increment aid auction b) min_increment aid
              bids).current_price := ih _
        _ = (run_bids auction min_increment aid (b :: bids)).current_price := by
            simp [run_bids]

/-- Claim C9: across any sequence of bids the auction's `current_price` never
decreases, and a bid at or below `current_price` is rejected with an error —
no fund lock is created for it (the error branch returns no state). The
acceptance check is modelled from the spec, see `place_bid`. -/
theorem auction_price_monotone :
    ∀ (auction : Auction) (min_increment : ℚ) (aid : String)
      (bids : List BidRequest),
      0 < min_increment →
      auction.current_price ≤
        (run_bids auction min_increment aid bids).current_price ∧
      (∀ (st : WalletState) (amount : ℚ) (prev : Option Nat) (now : Int),
        amount ≤ auction.current_price →
        ∃ e, place_bid auction st amount min_increment prev aid now = .error e) := by
  intro auction min_increment aid bids hpos
  constructor
  · exact run_bids_price_mono min_increment aid (le_of_lt hpos) bids auction
  · intro st amount prev now hle
    rw [place_bid]
    by_cases hact : auction.is_active now
    · rw [hact]
      simp only [Bool.not_true, Bool.false_eq_true, if_false]
      have hlow : amount < auction.current_price + min_increment := by linarith
      rw [if_pos hlow]
      exact ⟨_, rfl⟩
    · rw [Bool.not_eq_true] at hact
      rw [hact]
      exact ⟨_, rfl⟩

/-- Witness auction for C9. -/
def c9_auction : Auction :=
  { starting_price := 20, current_price := 20, starts_at := 0, ends_at := 1000,
    extended_until := none, status := AuctionStatus.active }

/-- Witness for C9 at a concrete active auction and positive increment. -/
theorem auction_price_monotone_witness :
    c9_auction.current_price ≤
      (run_bids c9_auction 10 "a1" []).current_price ∧
    (∀ (st : WalletState) (amount : ℚ) (prev : Option Nat) (now : Int),
      amount ≤ c9_auction.current_price →
      ∃ e, place_bid c9_auction st amount 10 prev "a1" now = .error e) := by
  exact auction_price_monotone c9_auction 10 "a1" [] (by norm_num)

end Marketplace
